import Mathlib

/-!
Shallow embedding of the iRail departure collectors of this repository:
`src/scripts/github_collector.py` (GitHub-Actions script) and
`src/dags/collector.py` (Airflow DAG task), together with the store
schema created by `ensure_schema` (github_collector.py lines 31-65).

Timestamps are modelled as epoch seconds (`Int`); `datetime.fromtimestamp`
and SQL `to_timestamp` are both injective maps from epoch seconds, so the
epoch integer is kept.  The `departures_raw` table is modelled as a
`List Row`: the surrogate `id SERIAL PRIMARY KEY` is row position, so the
list may hold equal rows more than once, exactly as the table can.
-/

namespace IRail

/-- One raw departure object of the liveboard JSON payload
(`departures.departure[i]`): exactly the fields read by the collectors,
each possibly absent (`dep.get(...)` with a default). -/
structure RawDep where
  vehicle : Option String
  platform : Option String
  time : Option Int
  delay : Option Int
  canceled : Option Int
  station : Option String
deriving DecidableEq

/-- The parts of a parsed liveboard response the collectors read:
`departures.departure` (the raw departure list), the top-level
`timestamp` (epoch seconds) and `stationinfo.standardname`. -/
structure Response where
  departures : List RawDep
  timestamp : Option Int
  standardname : Option String
deriving DecidableEq

/-- A row of table `departures_raw` as built by the INSERT statement of
both collectors (github_collector.py lines 90-105, collector.py lines
55-70).  `created_at` is storage-assigned and never read, so it is not
modelled. -/
structure Row where
  station : String
  train_id : String
  vehicle : String
  platform : String
  scheduled_time : Int
  delay_seconds : Int
  cancelled : Bool
  destination : String
  collected_at : Int
deriving DecidableEq

/-- Bool test that `p` is an initial segment of `s` (on character lists). -/
def isPref : List Char → List Char → Bool
  | [], _ => true
  | _ :: _, [] => false
  | a :: as, b :: bs => a == b && isPref as bs

/-- Bool test that `p` occurs as a contiguous run somewhere in `s`. -/
def hasSub (p : List Char) : List Char → Bool
  | [] => isPref p []
  | c :: cs => isPref p (c :: cs) || hasSub p cs

/-- Fuel-indexed worker for Python `str.replace(pat, '')`: scans left to
right, removing each non-overlapping occurrence of `pat`.  The fuel is an
upper bound on the scanned length; callers pass the string length, which
suffices for non-empty `pat`. -/
def replaceAllAux (pat : List Char) : Nat → List Char → List Char
  | 0, s => s
  | _ + 1, [] => []
  | n + 1, c :: cs =>
    if isPref pat (c :: cs) then replaceAllAux pat n ((c :: cs).drop pat.length)
    else c :: replaceAllAux pat n cs

/-- Python `s.replace(pat, '')` for non-empty `pat`: every non-overlapping
occurrence of `pat` in `s` is removed, scanning left to right.  This is
the operation used at `dep.get('vehicle', '').replace('BE.NMBS.', '')`
(github_collector.py line 97, collector.py line 62). -/
def pyReplace (s pat : String) : String :=
  String.mk (replaceAllAux pat.data s.data.length s.data)

/-- Modelled from the spec's words (for comparison only): derive the train
id by stripping the carrier prefix `"BE.NMBS."` once, at the front, if
present, else pass the id through unchanged. -/
def specTrainId (vehicle : String) : String :=
  if isPref "BE.NMBS.".data vehicle.data then String.mk (vehicle.data.drop 8)
  else vehicle

/-- The row built for one raw departure by the INSERT parameter tuple
(github_collector.py lines 96-104 / collector.py lines 61-69):
defaults are `''` for the string fields, epoch `0` for `time`, `0` for
`delay` and `canceled`; `cancelled` is the integer flag compared to 1. -/
def mkRow (station_name : String) (collected_at : Int) (dep : RawDep) : Row :=
  { station := station_name
    train_id := pyReplace (dep.vehicle.getD "") "BE.NMBS."
    vehicle := dep.vehicle.getD ""
    platform := dep.platform.getD ""
    scheduled_time := dep.time.getD 0
    delay_seconds := dep.delay.getD 0
    cancelled := dep.canceled.getD 0 == 1
    destination := dep.station.getD ""
    collected_at := collected_at }

/-- Whether `cursor.execute` of the INSERT raises for row `r`, given the
table `ensure_schema` creates (github_collector.py lines 36-50).  That
table has no unique or natural-key constraint (only `id SERIAL PRIMARY
KEY` and two non-unique indexes), and every NOT NULL column always
receives a value, so an insert can fail only by exceeding a column's
VARCHAR limit: station VARCHAR(100), train_id VARCHAR(50), vehicle
VARCHAR(50), platform VARCHAR(10), destination VARCHAR(100).  In
particular a row equal to an already stored row never fails. -/
def schemaFails (r : Row) : Bool :=
  decide (100 < r.station.length) || decide (50 < r.train_id.length) ||
  decide (50 < r.vehicle.length) || decide (10 < r.platform.length) ||
  decide (100 < r.destination.length)

/-- The per-record insert loop of the script collector
(github_collector.py lines 87-113): on a failing insert both `except`
branches call `conn.rollback()`, which discards every row inserted since
the last commit (the whole pending list), and `continue`; on success the
row joins the pending transaction and `inserted` is incremented. -/
def scriptLoopGo (fails : Row → Bool) : Nat → List Row → List Row → Nat × List Row
  | inserted, pending, [] => (inserted, pending)
  | inserted, pending, r :: rest =>
    if fails r then scriptLoopGo fails inserted [] rest
    else scriptLoopGo fails (inserted + 1) (pending ++ [r]) rest

/-- Script-collector persistence of one batch against the `ensure_schema`
table: run the insert loop, then `conn.commit()` (line 115) appends the
surviving pending rows to the store.  Returns the `inserted` counter and
the new store. -/
def persistScript (store rows : List Row) : Nat × List Row :=
  let res := scriptLoopGo schemaFails 0 [] rows
  (res.1, store ++ res.2)

/-- The per-record insert loop of the DAG collector (collector.py lines
51-75): a failing insert is caught and skipped with `continue` but never
rolled back, so the transaction is aborted and every later `execute`
raises immediately (caught again, nothing counted). -/
def dagLoopGo (fails : Row → Bool) : Nat → List Row → Bool → List Row → Nat × List Row × Bool
  | inserted, pending, aborted, [] => (inserted, pending, aborted)
  | inserted, pending, aborted, r :: rest =>
    if aborted then dagLoopGo fails inserted pending true rest
    else if fails r then dagLoopGo fails inserted pending true rest
    else dagLoopGo fails (inserted + 1) (pending ++ [r]) false rest

/-- DAG-collector persistence of one batch: run the loop, then
`conn.commit()` (collector.py line 77).  Committing an aborted
transaction performs a rollback, so nothing is stored in that case. -/
def persistDag (store rows : List Row) : Nat × List Row :=
  let res := dagLoopGo schemaFails 0 [] false rows
  (res.1, if res.2.2 then store else store ++ res.2.1)

/-- Per-station result as logged by the collectors: the `inserted`
counter and `len(departures)` (github_collector.py line 119). -/
structure CollectionResult where
  inserted : Nat
  attempted : Nat
deriving DecidableEq

/-- Which logging branch a station run took: `ok` (line 119 info),
`emptyWarn` (line 81 warning, empty departure list), `fetchFail`
(line 123 error, the outer `except`). -/
inductive StationOutcome
  | ok
  | emptyWarn
  | fetchFail
deriving DecidableEq

/-- The records built from one response (github_collector.py lines 76-78
with the per-iteration row construction of lines 96-104 hoisted out of
the loop, which is sound because the construction is pure):
`collected_at := int(data.get('timestamp', 0))` once for the response,
`station_name := data.get('stationinfo', \x7b\x7d).get('standardname', station)`,
one row per raw departure. -/
def normalizeRows (station : String) (data : Response) : List Row :=
  data.departures.map (mkRow (data.standardname.getD station) (data.timestamp.getD 0))

/-- `collect_station` (github_collector.py lines 67-124).  The fetch is
an oracle `fetch : String → Option Response`: `none` means the request,
status check or JSON parse raised (the outer `except` at lines 122-124
catches it, logs an error and returns 0).  An empty departure list logs a
warning and returns 0 (lines 80-82).  Otherwise the batch is persisted
and the inserted count returned. -/
def collect_station (fetch : String → Option Response) (store : List Row) (station : String) :
    CollectionResult × StationOutcome × List Row :=
  match fetch station with
  | none => (⟨0, 0⟩, StationOutcome.fetchFail, store)
  | some data =>
    if data.departures.isEmpty then (⟨0, 0⟩, StationOutcome.emptyWarn, store)
    else
      let res := persistScript store (normalizeRows station data)
      (⟨res.1, data.departures.length⟩, StationOutcome.ok, res.2)

/-- `fetch_and_store_liveboard` (collector.py lines 25-93).  A failed
fetch re-raises (lines 88-93), so the task fails: modelled as `none`.
Otherwise returns the inserted count and the new store. -/
def fetch_and_store_liveboard (fetch : String → Option Response) (store : List Row)
    (station : String) : Option (Nat × List Row) :=
  match fetch station with
  | none => none
  | some data =>
    if data.departures.isEmpty then some (0, store)
    else some (persistDag store (normalizeRows station data))

/-- The station loop of `main` (github_collector.py lines 136-139):
`total += collect_station(station)` over the station list, threading the
store; the per-station results are the successive return values. -/
def runCollectionGo (fetch : String → Option Response) :
    Nat → List CollectionResult → List Row → List String → Nat × List CollectionResult × List Row
  | total, results, store, [] => (total, results, store)
  | total, results, store, s :: rest =>
    runCollectionGo fetch (total + (collect_station fetch store s).1.inserted)
      (results ++ [(collect_station fetch store s).1])
      (collect_station fetch store s).2.2 rest

/-- One collection run over a station list, starting from a given store:
returns `(total_inserted, per-station results in order, final store)`. -/
def runCollection (fetch : String → Option Response) (store : List Row)
    (stations : List String) : Nat × List CollectionResult × List Row :=
  runCollectionGo fetch 0 [] store stations

/-- The monitored stations (github_collector.py lines 13-18). -/
def STATIONS : List String :=
  ["Brussels-Central", "Antwerp-Central", "Ghent-Sint-Pieters", "Liège-Guillemins"]

/-- `main` (github_collector.py lines 126-168).  `schemaOk` is the
`ensure_schema()` oracle and `statsOk` the oracle for the final
stats query block (lines 145-156); an exception in either lands in the
outer `except` (lines 164-168) and returns 1.  `collect_station` catches
all its own exceptions, so the station loop itself never raises.  The
second component is the run summary: `none` when the station loop never
ran (schema bootstrap failed before it). -/
def mainRun (schemaOk statsOk : Bool) (fetch : String → Option Response) (store : List Row) :
    Nat × Option (Nat × List CollectionResult × List Row) :=
  if schemaOk then
    (if statsOk then 0 else 1, some (runCollection fetch store STATIONS))
  else (1, none)

/-! ### Helper lemmas on the insert loops -/

/-- When no row of the batch makes its insert fail, the script loop
counts every row and keeps every row pending. -/
theorem scriptLoopGo_no_fail (fails : Row → Bool) (rows : List Row) :
    (∀ r ∈ rows, fails r = false) →
    ∀ (inserted : Nat) (pending : List Row),
      scriptLoopGo fails inserted pending rows = (inserted + rows.length, pending ++ rows) := by
  induction rows with
  | nil => intro _ n p; simp [scriptLoopGo]
  | cons r rest ih =>
    intro h n p
    have hr : fails r = false := h r (by simp)
    have hrest : ∀ x ∈ rest, fails x = false := fun x hx => h x (by simp [hx])
    simp only [scriptLoopGo, hr, Bool.false_eq_true, if_false]
    rw [ih hrest, List.append_assoc]
    simp only [List.singleton_append, List.length_cons]
    congr 1
    omega

/-- When no row of the batch makes its insert fail, the DAG loop counts
every row, keeps every row pending and never aborts. -/
theorem dagLoopGo_no_fail (fails : Row → Bool) (rows : List Row) :
    (∀ r ∈ rows, fails r = false) →
    ∀ (inserted : Nat) (pending : List Row),
      dagLoopGo fails inserted pending false rows = (inserted + rows.length, pending ++ rows, false) := by
  induction rows with
  | nil => intro _ n p; simp [dagLoopGo]
  | cons r rest ih =>
    intro h n p
    have hr : fails r = false := h r (by simp)
    have hrest : ∀ x ∈ rest, fails x = false := fun x hx => h x (by simp [hx])
    simp only [dagLoopGo, hr, Bool.false_eq_true, if_false]
    rw [ih hrest, List.append_assoc]
    simp only [List.singleton_append, List.length_cons]
    congr 1
    omega

/-! ### C1 -/

/-- A well-formed departure row, within every column limit of the
`ensure_schema` table. -/
def c1row : Row :=
  ⟨"Brussels-Central", "IC123", "BE.NMBS.IC123", "4", 1700000000, 0, false,
   "Ghent-Sint-Pieters", 1700000000⟩

/-- C1 (code evaluated at the failing input): persisting the very same
record twice stores it twice and the second attempt returns insertedCount
1, not 0 — the `ensure_schema` table has no natural-key or unique
constraint, so the duplicate insert succeeds instead of being skipped. -/
theorem c1_duplicate_persist_not_idempotent :
    persistScript [] [c1row] = (1, [c1row]) ∧
    persistScript (persistScript [] [c1row]).2 [c1row] = (1, [c1row, c1row]) :=
  ⟨rfl, rfl⟩

/-! ### C2 -/

/-- First record of the C2 batch: well-formed. -/
def c2rA : Row :=
  ⟨"Brussels-Central", "IC101", "BE.NMBS.IC101", "1", 1700000000, 0, false,
   "Antwerp-Central", 1700000000⟩

/-- Middle record of the C2 batch: its platform is 11 characters, which
overflows `platform VARCHAR(10)`, so its insert raises. -/
def c2rBad : Row :=
  ⟨"Brussels-Central", "IC102", "BE.NMBS.IC102", "PLATFORM-11", 1700000060, 0, false,
   "Antwerp-Central", 1700000000⟩

/-- Last record of the C2 batch: well-formed. -/
def c2rC : Row :=
  ⟨"Brussels-Central", "IC103", "BE.NMBS.IC103", "3", 1700000120, 0, false,
   "Antwerp-Central", 1700000000⟩

/-- C2 (code evaluated at the failing input): in the batch
`[c2rA, c2rBad, c2rC]` the failing middle insert triggers
`conn.rollback()`, which rolls the transaction back past `c2rA` as well:
only `c2rC` ends up committed even though both `c2rA` and `c2rC` were
counted.  There is no sub-transaction boundary, and the record executed
before the bad one is not committed. -/
theorem c2_rollback_discards_prior :
    schemaFails c2rA = false ∧ schemaFails c2rBad = true ∧
    persistScript [] [c2rA, c2rBad, c2rC] = (2, [c2rC]) :=
  ⟨rfl, rfl, rfl⟩

/-! ### C3 -/

/-- A well-formed record for the C3 batch. -/
def c3good : Row :=
  ⟨"Antwerp-Central", "IC201", "BE.NMBS.IC201", "2", 1700001000, 60, false,
   "Brussels-Central", 1700001000⟩

/-- A record whose platform overflows `VARCHAR(10)`, so its insert raises. -/
def c3bad : Row :=
  ⟨"Antwerp-Central", "IC202", "BE.NMBS.IC202", "PLATFORM-11", 1700001060, 0, false,
   "Brussels-Central", 1700001000⟩

/-- C3 counterexample: for the batch `[c3good, c3bad]` the script
collector returns insertedCount 1, yet zero rows end up committed — the
failing second insert rolls back the whole transaction, including the
already-counted first record. -/
theorem c3_count_exceeds_committed :
    (persistScript [] [c3good, c3bad]).1 = 1 ∧
    (persistScript [] [c3good, c3bad]).2 = [] :=
  ⟨rfl, rfl⟩

/-- C3 amended: persist returns the number of insert statements that
succeeded; when no record of the batch fails its insert (in particular,
for every batch whose fields respect the schema's column limits) that
number equals the count of rows actually committed, and the committed
rows are exactly the batch. -/
theorem c3_persist_count_amended (store rows : List Row)
    (h : ∀ r ∈ rows, schemaFails r = false) :
    persistScript store rows = (rows.length, store ++ rows) := by
  simp [persistScript, scriptLoopGo_no_fail schemaFails rows h 0 []]

/-- A well-formed record used to witness the amended C3. -/
def c3wrow : Row :=
  ⟨"Ghent-Sint-Pieters", "IC301", "BE.NMBS.IC301", "7", 1700002000, 0, true,
   "Brussels-Central", 1700002000⟩

/-- C3 amended, witnessed at a concrete batch. -/
theorem c3_persist_count_amended_witness :
    persistScript [] [c3wrow] = (1, [c3wrow]) := by
  have h := c3_persist_count_amended [] [c3wrow] (by decide)
  simpa using h

/-! ### C4 -/

/-- A list is an initial segment of itself followed by anything. -/
theorem isPref_append_self (l r : List Char) : isPref l (l ++ r) = true := by
  induction l with
  | nil => rfl
  | cons a as ih => simp [isPref, ih]

/-- If `pat` occurs nowhere in `s`, the replace worker leaves `s`
unchanged (for any sufficient fuel). -/
theorem replaceAllAux_no_occ (pat : List Char) :
    ∀ (fuel : Nat) (s : List Char), s.length ≤ fuel → hasSub pat s = false →
      replaceAllAux pat fuel s = s := by
  intro fuel
  induction fuel with
  | zero => intro s _ _; rfl
  | succ n ih =>
    intro s hlen hsub
    cases s with
    | nil => rfl
    | cons c cs =>
      have h2 : isPref pat (c :: cs) = false ∧ hasSub pat cs = false := by
        simpa [hasSub] using hsub
      have hcs : cs.length ≤ n := by
        simp only [List.length_cons] at hlen; omega
      simp [replaceAllAux, h2.1, ih cs hcs h2.2]

/-- If `s = pat ++ t` with `pat` non-empty and `pat` occurring nowhere in
`t`, the replace worker removes exactly the leading occurrence. -/
theorem replaceAllAux_strip (pat t : List Char) (hp : pat ≠ [])
    (hsub : hasSub pat t = false) :
    ∀ (fuel : Nat), pat.length + t.length ≤ fuel →
      replaceAllAux pat fuel (pat ++ t) = t := by
  intro fuel hfuel
  cases fuel with
  | zero =>
    cases pat with
    | nil => exact absurd rfl hp
    | cons a as => simp [List.length_cons] at hfuel
  | succ n =>
    cases pat with
    | nil => exact absurd rfl hp
    | cons a as =>
      have hlen : t.length ≤ n := by
        simp only [List.length_cons] at hfuel; omega
      have hcond : isPref (a :: as) (a :: (as ++ t)) = true := isPref_append_self (a :: as) t
      rw [show ((a :: as) ++ t : List Char) = a :: (as ++ t) from rfl]
      simp only [replaceAllAux]
      rw [if_pos hcond]
      rw [show (a :: (as ++ t)).drop ((a :: as).length) = t by
        simp [List.length_cons, List.drop_succ_cons, List.drop_left]]
      exact replaceAllAux_no_occ (a :: as) n t hlen hsub

/-- The raw vehicle id whose derived train id refutes C4 as stated. -/
def c4dep : RawDep := ⟨some "BE.NMBS.BE.NMBS.IC123", none, none, none, none, none⟩

/-- C4 counterexample: the raw id `"BE.NMBS.BE.NMBS.IC123"` starts with
the carrier prefix; removing that prefix exactly once (only at the prefix
position, only one occurrence — the spec-side reading `specTrainId`)
yields `"BE.NMBS.IC123"`, but the code's `str.replace` removes both
occurrences and derives `"IC123"`. -/
theorem c4_replace_not_strip_once :
    isPref "BE.NMBS.".data "BE.NMBS.BE.NMBS.IC123".data = true ∧
    specTrainId "BE.NMBS.BE.NMBS.IC123" = "BE.NMBS.IC123" ∧
    (mkRow "Brussels-Central" 0 c4dep).train_id = "IC123" ∧
    (mkRow "Brussels-Central" 0 c4dep).train_id ≠ specTrainId "BE.NMBS.BE.NMBS.IC123" := by
  refine ⟨rfl, rfl, rfl, ?_⟩
  decide

/-- C4 amended: the derived train id is the raw vehicle id with every
left-to-right non-overlapping occurrence of `"BE.NMBS."` removed;
consequently an id in which the pattern occurs nowhere passes through
unchanged, and an id consisting of the prefix followed by a suffix free
of further occurrences has the prefix removed exactly once. -/
theorem c4_train_id_amended (name : String) (cat : Int) (v t : String) :
    (hasSub "BE.NMBS.".data v.data = false →
      (mkRow name cat ⟨some v, none, none, none, none, none⟩).train_id = v) ∧
    (v.data = "BE.NMBS.".data ++ t.data → hasSub "BE.NMBS.".data t.data = false →
      (mkRow name cat ⟨some v, none, none, none, none, none⟩).train_id = t) := by
  constructor
  · intro h
    show pyReplace v "BE.NMBS." = v
    unfold pyReplace
    rw [replaceAllAux_no_occ _ _ _ (le_refl _) h]
  · intro hv h
    show pyReplace v "BE.NMBS." = t
    unfold pyReplace
    rw [hv, replaceAllAux_strip _ _ (by decide) h _
      (by simp [List.length_append]; omega)]

/-- C4 amended, witnessed: an id with no occurrence of the pattern is
unchanged, and a once-prefixed id is stripped exactly once. -/
theorem c4_train_id_amended_witness :
    (mkRow "Brussels-Central" 0 ⟨some "IC123", none, none, none, none, none⟩).train_id = "IC123" ∧
    (mkRow "Brussels-Central" 0 ⟨some "BE.NMBS.IC456", none, none, none, none, none⟩).train_id = "IC456" :=
  ⟨(c4_train_id_amended "Brussels-Central" 0 "IC123" "").1 (by decide),
   (c4_train_id_amended "Brussels-Central" 0 "BE.NMBS.IC456" "IC456").2 (by decide) (by decide)⟩

/-! ### C6 -/

/-- C6: for a response with a non-empty raw departure list, normalization
yields exactly one record per raw departure, every record carries the one
`collected_at` derived from the response-level timestamp (absent
defaulting to 0), and a response timestamp of epoch 0 yields the epoch
start with no special-casing. -/
theorem c6_normalize_one_record_uniform_timestamp (station : String) (data : Response)
    (_h : data.departures ≠ []) :
    (normalizeRows station data).length = data.departures.length ∧
    (∀ r ∈ normalizeRows station data, r.collected_at = data.timestamp.getD 0) ∧
    (data.timestamp = some 0 → ∀ r ∈ normalizeRows station data, r.collected_at = 0) := by
  refine ⟨by simp [normalizeRows], ?_, ?_⟩
  · intro r hr
    simp only [normalizeRows, List.mem_map] at hr
    obtain ⟨d, _, rfl⟩ := hr
    rfl
  · intro h0 r hr
    simp only [normalizeRows, List.mem_map] at hr
    obtain ⟨d, _, rfl⟩ := hr
    simp [mkRow, h0]

/-- A one-departure response at epoch 0 for the C6 witness. -/
def c6data : Response :=
  ⟨[⟨some "BE.NMBS.IC777", some "9", some 0, some 0, some 0, some "Ghent-Sint-Pieters"⟩],
   some 0, some "Brussel-Centraal"⟩

/-- C6 witnessed at a concrete non-empty response. -/
theorem c6_normalize_witness :
    (normalizeRows "Brussels-Central" c6data).length = c6data.departures.length ∧
    (∀ r ∈ normalizeRows "Brussels-Central" c6data, r.collected_at = c6data.timestamp.getD 0) ∧
    (c6data.timestamp = some 0 → ∀ r ∈ normalizeRows "Brussels-Central" c6data, r.collected_at = 0) :=
  c6_normalize_one_record_uniform_timestamp "Brussels-Central" c6data (by decide)

/-! ### C7 -/

/-- C7: a successfully fetched response with zero departures yields the
successful result `(inserted 0, attempted 0)` with the store untouched;
the branch taken is the warning branch (line 81), which is a different
outcome from the fetch-failure error branch (line 123). -/
theorem c7_empty_departures_not_error (fetch : String → Option Response) (store : List Row)
    (station : String) (data : Response) (hf : fetch station = some data)
    (hd : data.departures = []) :
    collect_station fetch store station = (⟨0, 0⟩, StationOutcome.emptyWarn, store) ∧
    StationOutcome.emptyWarn ≠ StationOutcome.fetchFail := by
  refine ⟨?_, by decide⟩
  simp [collect_station, hf, hd]

/-- An empty-departures response for the C7 witness. -/
def c7data : Response := ⟨[], some 1700000000, some "Brussel-Centraal"⟩

/-- A fetch oracle that always returns the empty response. -/
def c7fetch : String → Option Response := fun _ => some c7data

/-- C7 witnessed at a concrete empty response. -/
theorem c7_empty_departures_witness :
    collect_station c7fetch [] "Brussels-Central" = (⟨0, 0⟩, StationOutcome.emptyWarn, []) ∧
    StationOutcome.emptyWarn ≠ StationOutcome.fetchFail :=
  c7_empty_departures_not_error c7fetch [] "Brussels-Central" c7data rfl rfl

/-! ### C10 -/

/-- C10: a raw departure with any of its six fields absent still
normalizes, with the defaults the code supplies: empty string for
vehicle, train id, platform and destination, epoch 0 for the scheduled
time, 0 for the delay, false for the cancellation flag; and a response
without `stationinfo.standardname` falls back to the raw input station
key for the record's station field. -/
theorem c10_missing_field_defaults (name : String) (cat : Int) (dep : RawDep)
    (station : String) (data : Response) :
    (dep.vehicle = none → (mkRow name cat dep).train_id = "" ∧ (mkRow name cat dep).vehicle = "") ∧
    (dep.platform = none → (mkRow name cat dep).platform = "") ∧
    (dep.time = none → (mkRow name cat dep).scheduled_time = 0) ∧
    (dep.delay = none → (mkRow name cat dep).delay_seconds = 0) ∧
    (dep.canceled = none → (mkRow name cat dep).cancelled = false) ∧
    (dep.station = none → (mkRow name cat dep).destination = "") ∧
    (data.standardname = none → ∀ r ∈ normalizeRows station data, r.station = station) := by
  refine ⟨?_, ?_, ?_, ?_, ?_, ?_, ?_⟩
  · intro h; exact ⟨by simp [mkRow, h]; rfl, by simp [mkRow, h]⟩
  · intro h; simp [mkRow, h]
  · intro h; simp [mkRow, h]
  · intro h; simp [mkRow, h]
  · intro h; simp [mkRow, h]
  · intro h; simp [mkRow, h]
  · intro h r hr
    simp only [normalizeRows, List.mem_map] at hr
    obtain ⟨d, _, rfl⟩ := hr
    simp [mkRow, h]

/-- A raw departure with every field absent. -/
def c10dep : RawDep := ⟨none, none, none, none, none, none⟩

/-- A response lacking `stationinfo.standardname`. -/
def c10data : Response := ⟨[c10dep], some 0, none⟩

/-- C10 witnessed at the all-fields-absent departure and a response
without a resolved station name. -/
theorem c10_missing_field_defaults_witness :
    (mkRow "X" 0 c10dep).train_id = "" ∧ (mkRow "X" 0 c10dep).vehicle = "" ∧
    (mkRow "X" 0 c10dep).platform = "" ∧ (mkRow "X" 0 c10dep).scheduled_time = 0 ∧
    (mkRow "X" 0 c10dep).delay_seconds = 0 ∧ (mkRow "X" 0 c10dep).cancelled = false ∧
    (mkRow "X" 0 c10dep).destination = "" ∧
    (∀ r ∈ normalizeRows "Brussels-Central" c10data, r.station = "Brussels-Central") := by
  have h := c10_missing_field_defaults "X" 0 c10dep "Brussels-Central" c10data
  exact ⟨(h.1 rfl).1, (h.1 rfl).2, h.2.1 rfl, h.2.2.1 rfl, h.2.2.2.1 rfl,
    h.2.2.2.2.1 rfl, h.2.2.2.2.2.1 rfl, h.2.2.2.2.2.2 rfl⟩

/-! ### C5 -/

/-- The station loop splits over list append. -/
theorem runCollectionGo_append (fetch : String → Option Response) (l1 l2 : List String) :
    ∀ (t : Nat) (rs : List CollectionResult) (store : List Row),
      runCollectionGo fetch t rs store (l1 ++ l2) =
        runCollectionGo fetch (runCollectionGo fetch t rs store l1).1
          (runCollectionGo fetch t rs store l1).2.1
          (runCollectionGo fetch t rs store l1).2.2 l2 := by
  induction l1 with
  | nil => intro t rs store; simp [runCollectionGo]
  | cons s l ih =>
    intro t rs store
    simp only [List.cons_append, runCollectionGo]
    exact ih _ _ _

/-- The station loop's total and result accumulators factor out: the
total adds up and every result is appended at the end. -/
theorem runCollectionGo_acc (fetch : String → Option Response) (l : List String) :
    ∀ (t : Nat) (rs : List CollectionResult) (store : List Row),
      runCollectionGo fetch t rs store l =
        (t + (runCollectionGo fetch 0 [] store l).1,
         rs ++ (runCollectionGo fetch 0 [] store l).2.1,
         (runCollectionGo fetch 0 [] store l).2.2) := by
  induction l with
  | nil => intro t rs store; simp [runCollectionGo]
  | cons s l ih =>
    intro t rs store
    simp only [runCollectionGo]
    rw [ih (t + (collect_station fetch store s).1.inserted)
          (rs ++ [(collect_station fetch store s).1]) ((collect_station fetch store s).2.2),
        ih ((0 : Nat) + (collect_station fetch store s).1.inserted)
          ([] ++ [(collect_station fetch store s).1]) ((collect_station fetch store s).2.2)]
    simp only [Prod.mk.injEq, List.nil_append, List.append_assoc, and_true]
    omega

/-- One collection over `l` produces one result per station. -/
theorem runCollectionGo_results_length (fetch : String → Option Response) (l : List String) :
    ∀ (t : Nat) (rs : List CollectionResult) (store : List Row),
      (runCollectionGo fetch t rs store l).2.1.length = rs.length + l.length := by
  induction l with
  | nil => intro t rs store; simp [runCollectionGo]
  | cons s l ih =>
    intro t rs store
    simp only [runCollectionGo, List.length_cons]
    rw [ih]
    simp only [List.length_append, List.length_cons, List.length_nil]
    omega

/-- C5: a station whose fetch fails is recorded as the zero result
`(inserted 0, attempted 0)` with the store untouched, and the run around
it is exactly the run without it: the total inserted, the final store and
every other station's result are unchanged; the failed station merely
contributes an extra zero result at its position. -/
theorem c5_failure_isolation (fetch : String → Option Response) (store : List Row)
    (xs ys : List String) (A : String) (hA : fetch A = none) :
    collect_station fetch store A = (⟨0, 0⟩, StationOutcome.fetchFail, store) ∧
    (runCollection fetch store (xs ++ A :: ys)).1 = (runCollection fetch store (xs ++ ys)).1 ∧
    (runCollection fetch store (xs ++ A :: ys)).2.2 = (runCollection fetch store (xs ++ ys)).2.2 ∧
    (runCollection fetch store (xs ++ A :: ys)).2.1 =
      (runCollection fetch store (xs ++ ys)).2.1.take xs.length ++
        ⟨0, 0⟩ :: (runCollection fetch store (xs ++ ys)).2.1.drop xs.length := by
  have hcs : ∀ st : List Row, collect_station fetch st A = (⟨0, 0⟩, StationOutcome.fetchFail, st) := by
    intro st
    simp [collect_station, hA]
  have h1 : runCollection fetch store (xs ++ A :: ys) =
      runCollectionGo fetch (runCollectionGo fetch 0 [] store xs).1
        ((runCollectionGo fetch 0 [] store xs).2.1 ++ [⟨0, 0⟩])
        (runCollectionGo fetch 0 [] store xs).2.2 ys := by
    rw [runCollection, runCollectionGo_append fetch xs (A :: ys)]
    simp [runCollectionGo, hcs]
  have h2 : runCollection fetch store (xs ++ ys) =
      runCollectionGo fetch (runCollectionGo fetch 0 [] store xs).1
        (runCollectionGo fetch 0 [] store xs).2.1
        (runCollectionGo fetch 0 [] store xs).2.2 ys := by
    rw [runCollection, runCollectionGo_append fetch xs ys]
  have hlen : (runCollectionGo fetch 0 [] store xs).2.1.length = xs.length := by
    simpa using runCollectionGo_results_length fetch xs 0 [] store
  refine ⟨hcs store, ?_, ?_, ?_⟩
  · rw [h1, h2, runCollectionGo_acc fetch ys, runCollectionGo_acc fetch ys
      (runCollectionGo fetch 0 [] store xs).1 (runCollectionGo fetch 0 [] store xs).2.1]
  · rw [h1, h2, runCollectionGo_acc fetch ys, runCollectionGo_acc fetch ys
      (runCollectionGo fetch 0 [] store xs).1 (runCollectionGo fetch 0 [] store xs).2.1]
  · rw [h1, h2, runCollectionGo_acc fetch ys, runCollectionGo_acc fetch ys
      (runCollectionGo fetch 0 [] store xs).1 (runCollectionGo fetch 0 [] store xs).2.1]
    rw [← hlen, List.take_left, List.drop_left]
    simp [List.append_assoc]

/-- A liveboard response used by the C5 witness for the healthy stations. -/
def c5resp : Response :=
  ⟨[⟨some "BE.NMBS.IC888", some "2", some 1700000000, some 0, some 0, some "Ghent-Sint-Pieters"⟩],
   some 1700000000, some "Witness-Station"⟩

/-- A fetch oracle for the C5 witness: station `"A"` fails, every other
station returns `c5resp`. -/
def c5fetch : String → Option Response :=
  fun s => if s = "A" then none else some c5resp

/-- C5 witnessed at a concrete run: `"A"` fails between `"B"` and `"C"`. -/
theorem c5_failure_isolation_witness :
    collect_station c5fetch [] "A" = (⟨0, 0⟩, StationOutcome.fetchFail, []) ∧
    (runCollection c5fetch [] (["B"] ++ "A" :: ["C"])).1 =
      (runCollection c5fetch [] (["B"] ++ ["C"])).1 ∧
    (runCollection c5fetch [] (["B"] ++ "A" :: ["C"])).2.2 =
      (runCollection c5fetch [] (["B"] ++ ["C"])).2.2 ∧
    (runCollection c5fetch [] (["B"] ++ "A" :: ["C"])).2.1 =
      (runCollection c5fetch [] (["B"] ++ ["C"])).2.1.take (["B"] : List String).length ++
        ⟨0, 0⟩ :: (runCollection c5fetch [] (["B"] ++ ["C"])).2.1.drop (["B"] : List String).length :=
  c5_failure_isolation c5fetch [] ["B"] ["C"] "A" (by decide)

/-! ### C8 -/

/-- A fetch oracle on which every station's fetch fails. -/
def c8fetch : String → Option Response := fun _ => none

/-- C8 counterexample: with the schema bootstrap succeeding, every
station attempted (the run summary holds one result per configured
station) but the final stats query failing, `main` returns exit code 1 —
refuting that the exit code is 0 whenever every station was attempted. -/
theorem c8_stats_failure_nonzero_exit :
    (mainRun true false c8fetch []).1 = 1 ∧
    (mainRun true false c8fetch []).2 = some (0, [⟨0, 0⟩, ⟨0, 0⟩, ⟨0, 0⟩, ⟨0, 0⟩], []) :=
  ⟨rfl, rfl⟩

/-- C8 amended: the exit code is 0 exactly when both the schema bootstrap
and the final store-stats query succeed; per-station outcomes never
influence it.  The station loop runs (producing the summary) precisely
when the bootstrap succeeded, so bootstrap failure is process-fatal
before any station is attempted, while a stats-query failure yields exit
1 even after a fully attempted run. -/
theorem c8_exit_code_amended (schemaOk statsOk : Bool) (fetch : String → Option Response)
    (store : List Row) :
    (mainRun schemaOk statsOk fetch store).1 = (if schemaOk && statsOk then 0 else 1) ∧
    ((mainRun schemaOk statsOk fetch store).2 = some (runCollection fetch store STATIONS) ↔
      schemaOk = true) := by
  cases schemaOk <;> cases statsOk <;> simp [mainRun]

/-! ### C9 -/

/-- A raw departure whose platform field is 11 characters long, so its
row overflows `platform VARCHAR(10)` and its insert raises. -/
def c9depBad : RawDep :=
  ⟨some "BE.NMBS.IC101", some "PLATFORM-11", some 1700000000, some 0, some 0,
   some "Ghent-Sint-Pieters"⟩

/-- A well-formed raw departure. -/
def c9depGood : RawDep :=
  ⟨some "BE.NMBS.IC102", some "5", some 1700000060, some 0, some 0,
   some "Ghent-Sint-Pieters"⟩

/-- A response whose batch has the failing record before a good one. -/
def c9data : Response := ⟨[c9depBad, c9depGood], some 1700000000, some "Brussel-Centraal"⟩

/-- A fetch oracle returning `c9data` for every station. -/
def c9fetch : String → Option Response := fun _ => some c9data

/-- C9 counterexample: on the same response the two collectors disagree.
The script collector rolls back on the failing first insert, then inserts
and commits the second record (count 1, one stored row); the DAG
collector never rolls back, so its transaction aborts at the first
failure and its commit stores nothing (count 0, no rows). -/
theorem c9_collectors_differ :
    (collect_station c9fetch [] "Brussels-Central").1.inserted = 1 ∧
    (collect_station c9fetch [] "Brussels-Central").2.2 =
      [mkRow "Brussel-Centraal" 1700000000 c9depGood] ∧
    fetch_and_store_liveboard c9fetch [] "Brussels-Central" = some (0, []) :=
  ⟨rfl, rfl, rfl⟩

/-- C9 amended: for every successfully fetched response none of whose
normalized records fails its insert (in particular every batch within the
schema's column limits, duplicate records included, since duplicates
never raise), the DAG collector and the script collector produce the same
inserted count and the same stored rows. -/
theorem c9_collectors_agree_amended (fetch : String → Option Response) (station : String)
    (data : Response) (store : List Row) (hf : fetch station = some data)
    (h : ∀ r ∈ normalizeRows station data, schemaFails r = false) :
    fetch_and_store_liveboard fetch store station =
      some ((collect_station fetch store station).1.inserted,
            (collect_station fetch store station).2.2) := by
  by_cases hd : data.departures.isEmpty
  · simp [fetch_and_store_liveboard, collect_station, hf, hd]
  · simp [fetch_and_store_liveboard, collect_station, hf, hd, persistDag, persistScript,
      scriptLoopGo_no_fail schemaFails (normalizeRows station data) h 0 [],
      dagLoopGo_no_fail schemaFails (normalizeRows station data) h 0 []]

/-- A one-good-departure response for the C9 witness. -/
def c9wdata : Response := ⟨[c9depGood], some 0, none⟩

/-- A fetch oracle returning `c9wdata` for every station. -/
def c9wfetch : String → Option Response := fun _ => some c9wdata

/-- C9 amended, witnessed at a concrete in-limits response. -/
theorem c9_collectors_agree_witness :
    fetch_and_store_liveboard c9wfetch [] "Antwerp-Central" =
      some ((collect_station c9wfetch [] "Antwerp-Central").1.inserted,
            (collect_station c9wfetch [] "Antwerp-Central").2.2) :=
  c9_collectors_agree_amended c9wfetch "Antwerp-Central" c9wdata [] rfl (by decide)

end IRail
